import Mathlib

/-!
Verification development for the job-description extraction tool (`app.py`).

The program is a linear Streamlit script around three wrapped external calls:
document text extraction (`extract_text`), an LLM field-extraction request
(`extract_job_fields`), and an LLM introduction request (`generate_job_intro`),
followed by an optional text-to-speech rendering.  The shallow embedding below
models each external effect (file reads, HTTP transport, TTS) as an explicit
input of type `Except String _`:  `.ok` carries what the library call
delivered, `.error` carries the message of the exception it raised.  All
functions are executable and total; Python exceptions that the source code
catches are represented by `Except.error` values flowing into the catching
branch.
-/

/-- Python value as produced by `json.loads`: `null`, booleans, numbers
(kept as their source token: the claims under study never inspect numeric
magnitude, so the token is not normalised the way Python's `int`/`float`
round-trip would), strings, arrays, objects (association list in insertion
order, as a Python `dict` preserves it). -/
inductive JsonVal where
  | null
  | bool (b : Bool)
  | num (raw : String)
  | str (s : String)
  | arr (items : List JsonVal)
  | obj (members : List (String × JsonVal))

/-- The whitespace characters accepted between JSON tokens by Python's
`json.loads` (space, tab, newline, carriage return). -/
def isJsonWs (c : Char) : Bool :=
  c = ' ' || c = '\t' || c = '\n' || c = '\r'

/-- Drop leading JSON whitespace. -/
def skipWs : List Char → List Char
  | [] => []
  | c :: cs => if isJsonWs c then skipWs cs else c :: cs

/-- Does `hay` start with `needle`? -/
def listStarts : List Char → List Char → Bool
  | [], _ => true
  | _ :: _, [] => false
  | a :: as, b :: bs => a = b && listStarts as bs

/-- Is `needle` a contiguous substring of `hay` (Python `in` on strings)? -/
def listHasSub (needle : List Char) : List Char → Bool
  | [] => needle.isEmpty
  | c :: cs => listStarts needle (c :: cs) || listHasSub needle cs

/-- Value of a hexadecimal digit. -/
def hexVal (c : Char) : Option Nat :=
  if '0' ≤ c ∧ c ≤ '9' then some (c.toNat - 48)
  else if 'a' ≤ c ∧ c ≤ 'f' then some (c.toNat - 87)
  else if 'A' ≤ c ∧ c ≤ 'F' then some (c.toNat - 55)
  else none

/-- Body of a JSON string literal, after the opening quote: strict mode of
Python `json.loads` (escape sequences decoded, raw control characters
rejected; lone surrogate escapes rejected — a simplification, as is the
wording of every error message in this model, where Python would add
line/column positions). -/
def parseStringBody : Nat → List Char → List Char → Except String (String × List Char)
  | 0, _, _ => Except.error "Unterminated string"
  | _ + 1, _, [] => Except.error "Unterminated string"
  | fuel + 1, acc, c :: cs =>
    if c = '"' then Except.ok (String.mk acc.reverse, cs)
    else if c = '\\' then
      match cs with
      | [] => Except.error "Unterminated string"
      | e :: cs2 =>
        if e = '"' then parseStringBody fuel ('"' :: acc) cs2
        else if e = '\\' then parseStringBody fuel ('\\' :: acc) cs2
        else if e = '/' then parseStringBody fuel ('/' :: acc) cs2
        else if e = 'b' then parseStringBody fuel ('\x08' :: acc) cs2
        else if e = 'f' then parseStringBody fuel ('\x0c' :: acc) cs2
        else if e = 'n' then parseStringBody fuel ('\n' :: acc) cs2
        else if e = 'r' then parseStringBody fuel ('\r' :: acc) cs2
        else if e = 't' then parseStringBody fuel ('\t' :: acc) cs2
        else if e = 'u' then
          match cs2 with
          | h1 :: h2 :: h3 :: h4 :: cs3 =>
            match hexVal h1, hexVal h2, hexVal h3, hexVal h4 with
            | some a, some b, some c2, some d =>
              let n := ((a * 16 + b) * 16 + c2) * 16 + d
              if 0xD800 ≤ n ∧ n < 0xE000 then Except.error "Invalid unicode escape"
              else parseStringBody fuel (Char.ofNat n :: acc) cs3
            | _, _, _, _ => Except.error "Invalid unicode escape"
          | _ => Except.error "Invalid unicode escape"
        else Except.error "Invalid escape"
    else if c.toNat < 32 then Except.error "Invalid control character"
    else parseStringBody fuel (c :: acc) cs

/-- Longest leading run of decimal digits. -/
def takeDigits : List Char → (List Char × List Char)
  | [] => ([], [])
  | c :: cs =>
    if c.isDigit then
      let p := takeDigits cs
      (c :: p.1, p.2)
    else ([], c :: cs)

/-- Lex a JSON number token exactly as Python's `NUMBER_RE`
(`-?(0|[1-9]\d*)(\.\d+)?([eE][+-]?\d+)?`): the token stops where the
regular expression stops, leftovers stay in the input. -/
def parseNumber (cs : List Char) : Except String (String × List Char) :=
  let p0 : List Char × List Char :=
    match cs with
    | '-' :: t => (['-'], t)
    | _ => ([], cs)
  match p0.2 with
  | [] => Except.error "Expecting value"
  | d :: t =>
    if d.isDigit then
      let pInt : List Char × List Char :=
        if d = '0' then ([d], t) else takeDigits (d :: t)
      let pFrac : List Char × List Char :=
        match pInt.2 with
        | '.' :: t2 =>
          let q := takeDigits t2
          if q.1.isEmpty then ([], pInt.2) else ('.' :: q.1, q.2)
        | _ => ([], pInt.2)
      let pExp : List Char × List Char :=
        match pFrac.2 with
        | e :: t3 =>
          if e = 'e' ∨ e = 'E' then
            let sgn : List Char × List Char :=
              match t3 with
              | '+' :: tt => (['+'], tt)
              | '-' :: tt => (['-'], tt)
              | _ => ([], t3)
            let q := takeDigits sgn.2
            if q.1.isEmpty then ([], pFrac.2) else (e :: (sgn.1 ++ q.1), q.2)
          else ([], pFrac.2)
        | [] => ([], pFrac.2)
      Except.ok (String.mk (p0.1 ++ pInt.1 ++ pFrac.1 ++ pExp.1), pExp.2)
    else Except.error "Expecting value"

mutual

/-- Recursive-descent JSON value parser mirroring Python `json.loads`
(fuel-indexed; `json_loads` supplies enough fuel for any input). -/
def parseVal : Nat → List Char → Except String (JsonVal × List Char)
  | 0, _ => Except.error "Expecting value"
  | fuel + 1, cs =>
    match skipWs cs with
    | [] => Except.error "Expecting value"
    | c :: rest =>
      if c = '\x7b' then parseMembers fuel rest true []
      else if c = '[' then parseItems fuel rest true []
      else if c = '"' then
        match parseStringBody (rest.length + 1) [] rest with
        | Except.ok sr => Except.ok (JsonVal.str sr.1, sr.2)
        | Except.error e => Except.error e
      else if listStarts "true".data (c :: rest) then
        Except.ok (JsonVal.bool true, (c :: rest).drop 4)
      else if listStarts "false".data (c :: rest) then
        Except.ok (JsonVal.bool false, (c :: rest).drop 5)
      else if listStarts "null".data (c :: rest) then
        Except.ok (JsonVal.null, (c :: rest).drop 4)
      else if listStarts "NaN".data (c :: rest) then
        Except.ok (JsonVal.num "NaN", (c :: rest).drop 3)
      else if listStarts "Infinity".data (c :: rest) then
        Except.ok (JsonVal.num "Infinity", (c :: rest).drop 8)
      else if listStarts "-Infinity".data (c :: rest) then
        Except.ok (JsonVal.num "-Infinity", (c :: rest).drop 9)
      else if c = '-' ∨ c.isDigit then
        match parseNumber (c :: rest) with
        | Except.ok sr => Except.ok (JsonVal.num sr.1, sr.2)
        | Except.error e => Except.error e
      else Except.error "Expecting value"

/-- Members of a JSON object, after the opening brace. -/
def parseMembers : Nat → List Char → Bool → List (String × JsonVal) →
    Except String (JsonVal × List Char)
  | 0, _, _, _ => Except.error "Expecting value"
  | fuel + 1, cs, first, acc =>
    match skipWs cs with
    | [] => Except.error "Expecting property name enclosed in double quotes"
    | c :: rest =>
      if c = '\x7d' ∧ first then Except.ok (JsonVal.obj acc.reverse, rest)
      else if c = '"' then
        match parseStringBody (rest.length + 1) [] rest with
        | Except.error e => Except.error e
        | Except.ok kr =>
          match skipWs kr.2 with
          | ':' :: r2 =>
            match parseVal fuel r2 with
            | Except.error e => Except.error e
            | Except.ok vr =>
              match skipWs vr.2 with
              | ',' :: r4 => parseMembers fuel r4 false ((kr.1, vr.1) :: acc)
              | '\x7d' :: r4 => Except.ok (JsonVal.obj ((kr.1, vr.1) :: acc).reverse, r4)
              | _ => Except.error "Expecting comma delimiter"
          | _ => Except.error "Expecting colon delimiter"
      else Except.error "Expecting property name enclosed in double quotes"

/-- Items of a JSON array, after the opening bracket. -/
def parseItems : Nat → List Char → Bool → List JsonVal →
    Except String (JsonVal × List Char)
  | 0, _, _, _ => Except.error "Expecting value"
  | fuel + 1, cs, first, acc =>
    match skipWs cs with
    | [] => Except.error "Expecting value"
    | c :: rest =>
      if c = ']' ∧ first then Except.ok (JsonVal.arr acc.reverse, rest)
      else
        match parseVal fuel (c :: rest) with
        | Except.error e => Except.error e
        | Except.ok vr =>
          match skipWs vr.2 with
          | ',' :: r2 => parseItems fuel r2 false (vr.1 :: acc)
          | ']' :: r2 => Except.ok (JsonVal.arr (vr.1 :: acc).reverse, r2)
          | _ => Except.error "Expecting comma delimiter"

end

/-- Model of Python `json.loads`: parse one value, then require only
whitespace to remain (otherwise Python raises `Extra data`). -/
def json_loads (s : String) : Except String JsonVal :=
  match parseVal (2 * s.length + 4) s.data with
  | Except.error e => Except.error e
  | Except.ok vr =>
    match skipWs vr.2 with
    | [] => Except.ok vr.1
    | _ :: _ => Except.error "Extra data"

example : json_loads "\x7b\"a\": 1\x7d" =
    Except.ok (JsonVal.obj [("a", JsonVal.num "1")]) := by rfl

example : json_loads " [true, null, \"x\"] " =
    Except.ok (JsonVal.arr [JsonVal.bool true, JsonVal.null, JsonVal.str "x"]) := by rfl

example : json_loads "\x7bbad\x7d" =
    Except.error "Expecting property name enclosed in double quotes" := by rfl

example : json_loads "\x7b\"a\": 1\x7d trailing \x7d" = Except.error "Extra data" := by rfl

/-- Hexadecimal digit character (lower case), as Python `json.dumps` emits. -/
def hexDigitChar (n : Nat) : Char :=
  if n < 10 then Char.ofNat (48 + n) else Char.ofNat (87 + (n - 10))

/-- Four-digit hexadecimal rendering for a `\uXXXX` escape. -/
def hex4 (n : Nat) : String :=
  String.mk [hexDigitChar (n / 4096 % 16), hexDigitChar (n / 256 % 16),
    hexDigitChar (n / 16 % 16), hexDigitChar (n % 16)]

/-- `\uXXXX` escape (surrogate pair above the basic plane), as the
`ensure_ascii` mode of Python `json.dumps` emits. -/
def uEscape (n : Nat) : String :=
  if n < 0x10000 then "\\u" ++ hex4 n
  else
    "\\u" ++ hex4 (0xD800 + (n - 0x10000) / 1024) ++
    "\\u" ++ hex4 (0xDC00 + (n - 0x10000) % 1024)

/-- One character of a JSON string as serialised by Python `json.dumps`
with its default `ensure_ascii=True`. -/
def escChar (c : Char) : String :=
  if c = '"' then "\\\""
  else if c = '\\' then "\\\\"
  else if c = '\n' then "\\n"
  else if c = '\t' then "\\t"
  else if c = '\r' then "\\r"
  else if c = '\x08' then "\\b"
  else if c = '\x0c' then "\\f"
  else if c.toNat < 32 ∨ c.toNat > 126 then uEscape c.toNat
  else String.mk [c]

/-- JSON string literal as serialised by Python `json.dumps`. -/
def dumpStr (s : String) : String :=
  "\"" ++ String.join (s.data.map escChar) ++ "\""

/-- Run of `n` spaces. -/
def spaces (n : Nat) : String := String.mk (List.replicate n ' ')

mutual

/-- Model of Python `json.dumps(v, indent=2)` at indentation level `ind`
(numbers are echoed as their stored token — see `JsonVal.num`). -/
def dumpVal (ind : Nat) : JsonVal → String
  | JsonVal.null => "null"
  | JsonVal.bool b => if b then "true" else "false"
  | JsonVal.num raw => raw
  | JsonVal.str s => dumpStr s
  | JsonVal.arr [] => "[]"
  | JsonVal.arr (x :: xs) =>
    "[\n" ++ dumpItems (ind + 2) x xs ++ "\n" ++ spaces ind ++ "]"
  | JsonVal.obj [] => "\x7b\x7d"
  | JsonVal.obj ((k, v) :: ms) =>
    "\x7b\n" ++ dumpMembers (ind + 2) k v ms ++ "\n" ++ spaces ind ++ "\x7d"
termination_by v => sizeOf v
decreasing_by all_goals (simp_wf; try omega)

/-- Comma-and-newline separated array items at indentation `ind`. -/
def dumpItems (ind : Nat) (x : JsonVal) (xs : List JsonVal) : String :=
  match xs with
  | [] => spaces ind ++ dumpVal ind x
  | y :: ys => spaces ind ++ dumpVal ind x ++ ",\n" ++ dumpItems ind y ys
termination_by sizeOf x + sizeOf xs
decreasing_by all_goals (simp_wf; try omega)

/-- Comma-and-newline separated object members at indentation `ind`. -/
def dumpMembers (ind : Nat) (k : String) (v : JsonVal) (ms : List (String × JsonVal)) : String :=
  match ms with
  | [] => spaces ind ++ dumpStr k ++ ": " ++ dumpVal ind v
  | (k2, v2) :: ys =>
    spaces ind ++ dumpStr k ++ ": " ++ dumpVal ind v ++ ",\n" ++ dumpMembers ind k2 v2 ys
termination_by sizeOf v + sizeOf ms
decreasing_by all_goals (simp_wf; try omega)

end

/-- Model of `json.dumps(job_json, indent=2)` as used in `generate_job_intro`. -/
def json_dumps_indent2 (v : JsonVal) : String := dumpVal 0 v

example : json_dumps_indent2 (JsonVal.obj [("a", JsonVal.num "1"),
    ("b", JsonVal.arr [JsonVal.str "x"])]) =
    "\x7b\n  \"a\": 1,\n  \"b\": [\n    \"x\"\n  ]\n\x7d" := by
  simp only [json_dumps_indent2, dumpVal, dumpItems, dumpMembers, dumpStr, escChar, spaces]
  rfl

/-- The ASCII whitespace Python `str.strip()` removes (the model restricts
itself to ASCII; no input in this development carries Unicode spaces). -/
def isPyWs (c : Char) : Bool :=
  c = ' ' || c = '\t' || c = '\n' || c = '\r' || c = '\x0b' || c = '\x0c'

/-- Drop leading Python whitespace. -/
def dropPyWs : List Char → List Char
  | [] => []
  | c :: cs => if isPyWs c then dropPyWs cs else c :: cs

/-- Model of Python `str.strip()`. -/
def py_strip (s : String) : String :=
  String.mk ((dropPyWs (dropPyWs s.data).reverse).reverse)

/-- Model of Python `str.startswith(pre)`. -/
def py_startswith (pre s : String) : Bool := listStarts pre.data s.data

/-- ASCII lower-casing of one character, as Python `str.lower()` acts on the
extension strings in play. -/
def py_lower_char (c : Char) : Char :=
  if 'A' ≤ c ∧ c ≤ 'Z' then Char.ofNat (c.toNat + 32) else c

example : py_strip "  ab c\n" = "ab c" := by rfl
example : py_startswith "__READ_ERROR__" "__READ_ERROR__:x" = true := by rfl

/-- What the document-parsing libraries deliver for the uploaded file at the
fixed scratch path: for each of the three readers the model records either
the data the library would produce (`.ok`) or the message of the exception
it would raise (`.error`).  A PDF page's `extract_text()` may return `None`
(hence `Option String`); a mid-loop failure is observationally the same as a
failure of the whole read, since the partially accumulated text is discarded
by the `except` branch. -/
structure FS where
  pdfPages : Except String (List (Option String))
  docxParas : Except String (List String)
  txtContent : Except String String

/-- Model of `extract_text(file_path, file_type)` (app.py lines 19-37):
concatenate page/paragraph texts with newlines (PDF, DOCX) or read the file
whole (TXT), strip the result; any exception is caught and returned as the
sentinel string `__READ_ERROR__:<message>`; an unrecognised `file_type`
falls through every branch and yields `"".strip() = ""`. -/
def extract_text (fs : FS) (file_type : String) : String :=
  if file_type = "pdf" then
    match fs.pdfPages with
    | Except.ok pages => py_strip (pages.foldl (fun t p => t ++ p.getD "" ++ "\n") "")
    | Except.error e => "__READ_ERROR__:" ++ e
  else if file_type = "docx" then
    match fs.docxParas with
    | Except.ok paras => py_strip (paras.foldl (fun t p => t ++ p ++ "\n") "")
    | Except.error e => "__READ_ERROR__:" ++ e
  else if file_type = "txt" then
    match fs.txtContent with
    | Except.ok content => py_strip content
    | Except.error e => "__READ_ERROR__:" ++ e
  else ""

/-- The sixteen field names enumerated by the instruction prompt of
`extract_job_fields` (app.py lines 52-67), in source order. -/
def target_fields : List String :=
  ["job_title", "company_name", "location", "employment_type",
   "seniority_level", "hard_skills", "soft_skills", "certifications",
   "tools", "experience", "education_level", "duties_and_responsibilities",
   "preferred_skills", "communication_skills", "language", "salary"]

/-- The instruction prompt of `extract_job_fields` (the f-string of app.py
lines 46-77), with the field bullet list built from `target_fields`;
`extract_prompt_flat` below proves the assembled text is character-for-
character the source literal. -/
def extract_prompt (job_text : String) : String :=
  "\nYou are an expert job information extraction assistant.\n\nFrom the job description below, extract and return a structured JSON object\nwith the following fields:\n\n"
  ++ String.intercalate "\n" (target_fields.map (fun f => "- " ++ f))
  ++ "\n\nRules:\n- Use lists for fields like skills, certifications, tools, or languages.\n- If a field is not present, return null or an empty list.\n- Maintain JSON validity strictly â€” no explanations or extra text.\n- Do not infer or guess beyond the text; extract only what is clearly mentioned.\n\nJob Description:\n\"\"\""
  ++ job_text ++ "\"\"\"\n"

/-- Base URL of the remote chat-completion API (app.py line 13). -/
def GROQ_API_BASE : String := "https://api.groq.com/openai/v1"

/-- One HTTP POST to the chat-completions endpoint: the request fields the
source puts in the JSON body plus the bearer credential from the
`Authorization` header and the `timeout=` keyword of `requests.post`. -/
structure ApiRequest where
  url : String
  auth_bearer : Option String
  model : String
  message_content : String
  temperature : Rat
  max_tokens : Nat
  timeout : Option Nat
deriving DecidableEq

/-- The request `extract_job_fields` sends (app.py lines 79-89):
temperature 0, max_tokens 1200, timeout 30 seconds. -/
def extract_job_fields_request (api_key : Option String) (job_text : String) : ApiRequest :=
  { url := GROQ_API_BASE ++ "/chat/completions"
    auth_bearer := api_key
    model := "llama-3.3-70b-versatile"
    message_content := extract_prompt job_text
    temperature := 0
    max_tokens := 1200
    timeout := some 30 }

/-- Greedy tail of the regex `\x7b[\s\S]*\x7d` after its opening brace has
been consumed: the Kleene star first tries to swallow one more character and
only falls back to closing the match when the rest cannot close it, so a
successful match runs to the last `\x7d` of the remaining input.  Returns
the matched length (closing brace included). -/
def matchStarClose : List Char → Option Nat
  | [] => none
  | c :: cs =>
    match matchStarClose cs with
    | some n => some (n + 1)
    | none => if c = '\x7d' then some 1 else none

/-- Leftmost-match search of `re.search`: try each start offset left to
right; a match requires an opening brace whose remainder closes.  Returns
the start index and the total matched length. -/
def searchFrom : List Char → Option (Nat × Nat)
  | [] => none
  | c :: cs =>
    if c = '\x7b' then
      match matchStarClose cs with
      | some n => some (0, n + 1)
      | none => (searchFrom cs).map (fun p => (p.1 + 1, p.2))
    else (searchFrom cs).map (fun p => (p.1 + 1, p.2))

/-- Model of `re.search(r"\x7b[\s\S]*\x7d", content)` followed by
`.group(0)` (app.py lines 97-99): the leftmost, greedy brace-delimited
span, or `none` when the pattern does not occur. -/
def re_search_braces (s : String) : Option String :=
  (searchFrom s.data).map (fun p => String.mk ((s.data.drop p.1).take p.2))

/-- Index of the first `\x7b` in the character list. -/
def firstBraceIdx : List Char → Option Nat
  | [] => none
  | c :: cs => if c = '\x7b' then some 0 else (firstBraceIdx cs).map (· + 1)

/-- Index of the last `\x7d` in the character list. -/
def lastCloseIdx : List Char → Option Nat
  | [] => none
  | c :: cs =>
    match lastCloseIdx cs with
    | some j => some (j + 1)
    | none => if c = '\x7d' then some 0 else none

example : re_search_braces "pre \x7b\"a\": 1\x7d mid \x7d post" =
    some "\x7b\"a\": 1\x7d mid \x7d" := by rfl

example : re_search_braces "no braces here" = none := by rfl

/-- Model of `extract_job_fields` (app.py lines 88-103) as a function of the
transport outcome: `.ok content` is the reply text
`response.json()["choices"][0]["message"]["content"]`; `.error e` is the
message of any exception raised by the request, the status check or the
response indexing.  Parsing policy of lines 92-103: strict parse; then
regex recovery via `re.search(r"\x7b[\s\S]*\x7d", content)`; a decode
failure of the recovered substring escapes to the outer handler and is
returned as a record with only an `error` field. -/
def extract_job_fields (job_text : String) (transport : Except String String) : JsonVal :=
  match transport with
  | Except.error e => JsonVal.obj [("error", JsonVal.str e)]
  | Except.ok content =>
    match json_loads content with
    | Except.ok v => v
    | Except.error _ =>
      match re_search_braces content with
      | some sub =>
        match json_loads sub with
        | Except.ok v => v
        | Except.error m => JsonVal.obj [("error", JsonVal.str m)]
      | none =>
        JsonVal.obj [("error", JsonVal.str "No valid JSON detected"),
                     ("raw_output", JsonVal.str content)]

example : extract_job_fields "jd" (Except.ok "\x7b\"a\": 1\x7d") =
    JsonVal.obj [("a", JsonVal.num "1")] := by rfl

example : extract_job_fields "jd" (Except.ok "noise \x7b\"a\": 1\x7d") =
    JsonVal.obj [("a", JsonVal.num "1")] := by rfl

example : extract_job_fields "jd" (Except.ok "nothing here") =
    JsonVal.obj [("error", JsonVal.str "No valid JSON detected"),
                 ("raw_output", JsonVal.str "nothing here")] := by rfl

/-- The prompt of `generate_job_intro` (app.py lines 111-117): fixed header
followed by the job record serialised with `json.dumps(job_json, indent=2)`. -/
def intro_prompt (job_json : JsonVal) : String :=
  "You are an HR assistant creating a professional spoken job introduction for a voice-over. Write a 2-paragraph overview (around 100â€“150 words) highlighting the role, key skills, company, and what makes this position appealing. Use a friendly yet professional tone.\n\nJob Data:\n"
  ++ json_dumps_indent2 job_json

/-- The request `generate_job_intro` sends (app.py lines 119-129):
temperature 0.7, max_tokens 400, timeout 30 seconds. -/
def generate_job_intro_request (api_key : Option String) (job_json : JsonVal) : ApiRequest :=
  { url := GROQ_API_BASE ++ "/chat/completions"
    auth_bearer := api_key
    model := "llama-3.3-70b-versatile"
    message_content := intro_prompt job_json
    temperature := 0.7
    max_tokens := 400
    timeout := some 30 }

/-- Model of `generate_job_intro` (app.py lines 107-133): on transport
success return the reply content stripped; any exception is caught and
returned as the string `Error generating intro: <message>`. -/
def generate_job_intro (job_json : JsonVal) (transport : Except String String) : String :=
  let _ := job_json
  match transport with
  | Except.ok content => py_strip content
  | Except.error e => "Error generating intro: " ++ e

/-- The local text-to-speech invocation (app.py lines 170-171): constructor
arguments of `TTS(...)` and keyword arguments of `tts_to_file(...)`.  The
interface offers no timeout at all; the `timeout` field records that fact
as `none` so the resource model of the call can be stated alongside the
HTTP requests. -/
structure TtsCall where
  model_name : String
  progress_bar : Bool
  gpu : Bool
  text : String
  file_path : String
  timeout : Option Nat
deriving DecidableEq

/-- The concrete TTS call the audio stage issues for introduction `intro`. -/
def tts_call (intro : String) : TtsCall :=
  { model_name := "tts_models/en/ljspeech/tacotron2-DDC"
    progress_bar := false
    gpu := false
    text := intro
    file_path := "__DATA__/job_intro.wav"
    timeout := none }

/-- Keys of a parsed object (empty for every other value). -/
def pyKeys : JsonVal → List String
  | JsonVal.obj members => members.map Prod.fst
  | _ => []

/-- Does the value, viewed as a Python object, have key `k`? -/
def pyHasKey (k : String) (v : JsonVal) : Bool :=
  (pyKeys v).contains k

/-- Python's `needle in v` for the values `json.loads` can produce: key
lookup on a dict, element equality on a list, substring test on a string;
on a number, boolean or `None` the `in` operator raises `TypeError`, which
nothing in the script catches. -/
def py_in_str (needle : String) : JsonVal → Except String Bool
  | JsonVal.obj members => Except.ok (members.any (fun kv => kv.1 = needle))
  | JsonVal.arr items =>
    Except.ok (items.any (fun x =>
      match x with
      | JsonVal.str s => s = needle
      | _ => false))
  | JsonVal.str s => Except.ok (listHasSub needle.data s.data)
  | _ => Except.error "TypeError: argument of type is not iterable"

/-- Fields of a Python `str.split(".")` over a character list. -/
def split_dot : List Char → List Char → List (List Char)
  | [], acc => [acc.reverse]
  | c :: cs, acc =>
    if c = '.' then acc.reverse :: split_dot cs [] else split_dot cs (c :: acc)

/-- Model of `uploaded_file.name.split(".")[-1].lower()` (app.py line 142). -/
def file_ext (name : String) : String :=
  String.mk (((split_dot name.data []).getLastD name.data).map py_lower_char)

example : file_ext "Job Desc.PDF" = "pdf" := by rfl
example : file_ext "nodot" = "nodot" := by rfl

/-- One rendered Streamlit element of the single pass, in source order. -/
inductive UIElem where
  | pageTitle (s : String)
  | fileUploader (label : String) (types : List String)
  | textArea (label text : String) (height : Nat)
  | errorMsg (s : String)
  | warningMsg (s : String)
  | jsonView (v : JsonVal)
  | subheader (s : String)
  | actionButton (label : String)
  | audioPlayer (path : String)

/-- One external call issued during the pass, tagged by its call site. -/
inductive ShellCall where
  | fieldsHttp (req : ApiRequest)
  | introHttp (req : ApiRequest)
  | ttsRender (c : TtsCall)

/-- Bare stage tag of a call, for ordering statements. -/
inductive StageTag where
  | fields
  | intro
  | tts
deriving DecidableEq

/-- Forget a call's payload. -/
def ShellCall.tag : ShellCall → StageTag
  | ShellCall.fieldsHttp _ => StageTag.fields
  | ShellCall.introHttp _ => StageTag.intro
  | ShellCall.ttsRender _ => StageTag.tts

/-- Stage tags of a call list. -/
def tagsOf (cs : List ShellCall) : List StageTag := cs.map ShellCall.tag

/-- Is the field-extraction HTTP call among the calls? -/
def hasFields (cs : List ShellCall) : Bool := (tagsOf cs).contains StageTag.fields

/-- Is the introduction HTTP call among the calls? -/
def hasIntro (cs : List ShellCall) : Bool := (tagsOf cs).contains StageTag.intro

/-- Is the TTS rendering among the calls? -/
def hasTts (cs : List ShellCall) : Bool := (tagsOf cs).contains StageTag.tts

/-- Outcome of one Streamlit pass: the elements rendered (in order), the
external calls issued (in order), and — when the script itself raised an
uncaught exception (the `TypeError` of `"error" not in job_json` on a
non-container value) — its message; elements rendered before the raise are
kept, progression after it is lost. -/
structure ShellRun where
  elems : List UIElem
  calls : List ShellCall
  crashed : Option String

/-- Everything one pass of the script reads from the outside world: the
environment credential, the optional uploaded file (its name; its parsed
content sits in `fs`, which models what the readers deliver for the bytes
written to the scratch path), whether each `st.button` reported a click in
this pass, and each external call's outcome were it issued. -/
structure ShellInput where
  api_key : Option String
  uploaded : Option String
  fs : FS
  extract_clicked : Bool
  audio_clicked : Bool
  fields_transport : Except String String
  intro_transport : Except String String
  tts_result : Except String Unit

/-- The page title (app.py line 137). -/
def page_title : String :=
  "ðŸ“‹ Job Description Field Extractor + Audio Intro (Groq LLM)"

/-- The uploader label (app.py line 139). -/
def uploader_label : String := "Upload a Job Description file (PDF, DOCX, or TXT)"

/-- The short-text warning (app.py line 153). -/
def short_text_warning : String :=
  "âš ï¸ The job description text seems too short."

/-- The extracted-text area label (app.py line 155). -/
def extracted_text_label : String := "ðŸ“ Extracted Text"

/-- The extract-fields button label (app.py line 157). -/
def extract_button_label : String := "ðŸ” Extract Job Fields"

/-- The JSON subheader (app.py line 159). -/
def json_subheader : String := "ðŸ“Š Extracted Job Information (JSON)"

/-- The introduction subheader (app.py line 163). -/
def intro_subheader : String := "ðŸŽ™ Generate Job Introduction Script"

/-- The convert-to-audio button label (app.py line 167). -/
def audio_button_label : String := "ðŸ”Š Convert to Audio"

/-- The two elements rendered before any upload is inspected. -/
def shell_header : List UIElem :=
  [UIElem.pageTitle page_title,
   UIElem.fileUploader uploader_label ["pdf", "docx", "txt"]]

/-- Model of the script body (app.py lines 137-174), one reactive pass.
With no upload only the header renders.  Otherwise the uploaded bytes are
written to the scratch path and extracted; a sentinel-prefixed result
renders an error, a stripped length under 50 renders the short-text
warning (and, being an `elif`, skips the `else` branch that holds the text
area and the extract button), and only the `else` branch renders the
button and, on a click, runs field extraction, shows the JSON, and — when
the record has no `"error"` key — immediately generates the introduction
and offers the audio button, whose click runs the TTS stage. -/
def shell_run (inp : ShellInput) : ShellRun :=
  match inp.uploaded with
  | none => { elems := shell_header, calls := [], crashed := none }
  | some name =>
    let ext := file_ext name
    let job_text := extract_text inp.fs ext
    if py_startswith "__READ_ERROR__" job_text then
      { elems := shell_header ++ [UIElem.errorMsg ("Failed to read file: " ++ job_text)]
        calls := [], crashed := none }
    else if (py_strip job_text).length < 50 then
      { elems := shell_header ++ [UIElem.warningMsg short_text_warning]
        calls := [], crashed := none }
    else
      let els0 := shell_header ++
        [UIElem.textArea extracted_text_label job_text 200,
         UIElem.actionButton extract_button_label]
      if inp.extract_clicked then
        let job_json := extract_job_fields job_text inp.fields_transport
        let els1 := els0 ++ [UIElem.subheader json_subheader, UIElem.jsonView job_json]
        let calls1 := [ShellCall.fieldsHttp (extract_job_fields_request inp.api_key job_text)]
        match py_in_str "error" job_json with
        | Except.error e => { elems := els1, calls := calls1, crashed := some e }
        | Except.ok true => { elems := els1, calls := calls1, crashed := none }
        | Except.ok false =>
          let job_intro := generate_job_intro job_json inp.intro_transport
          let els2 := els1 ++
            [UIElem.subheader intro_subheader,
             UIElem.textArea "Generated Introduction Script" job_intro 150,
             UIElem.actionButton audio_button_label]
          let calls2 := calls1 ++
            [ShellCall.introHttp (generate_job_intro_request inp.api_key job_json)]
          if inp.audio_clicked then
            let calls3 := calls2 ++ [ShellCall.ttsRender (tts_call job_intro)]
            match inp.tts_result with
            | Except.ok _ =>
              { elems := els2 ++ [UIElem.audioPlayer "__DATA__/job_intro.wav"]
                calls := calls3, crashed := none }
            | Except.error e =>
              { elems := els2 ++ [UIElem.errorMsg ("TTS conversion failed: " ++ e)]
                calls := calls3, crashed := none }
          else { elems := els2, calls := calls2, crashed := none }
      else { elems := els0, calls := [], crashed := none }

/-- Is the element an action button? -/
def isButton : UIElem → Bool
  | UIElem.actionButton _ => true
  | _ => false

/-- Is the element the short-text warning? -/
def isWarning : UIElem → Bool
  | UIElem.warningMsg _ => true
  | _ => false

/-- The resource policy of one external call: HTTP carries the fixed
30-second timeout, the TTS rendering carries none. -/
def call_timeouts_ok : ShellCall → Bool
  | ShellCall.fieldsHttp r => r.timeout == some 30
  | ShellCall.introHttp r => r.timeout == some 30
  | ShellCall.ttsRender t => t.timeout == none

example :
    (shell_run
      { api_key := none, uploaded := some "jd.txt"
        fs := { pdfPages := Except.error "na", docxParas := Except.error "na"
                txtContent := Except.ok "short text" }
        extract_clicked := true, audio_clicked := false
        fields_transport := Except.error "na", intro_transport := Except.error "na"
        tts_result := Except.ok () }).elems
    = shell_header ++ [UIElem.warningMsg short_text_warning] := by rfl

example :
    tagsOf (shell_run
      { api_key := none, uploaded := some "jd.txt"
        fs := { pdfPages := Except.error "na", docxParas := Except.error "na"
                txtContent := Except.ok "Software Engineer role at Acme building compilers in Lean, remote." }
        extract_clicked := true, audio_clicked := false
        fields_transport := Except.ok "\x7b\"job_title\": \"Software Engineer\"\x7d"
        intro_transport := Except.ok "Welcome!"
        tts_result := Except.ok () }).calls
    = [StageTag.fields, StageTag.intro] := by rfl

/-- The greedy star runs to the last closing brace: `matchStarClose`
succeeds exactly when a `\x7d` occurs, and the match ends right after the
last one. -/
theorem matchStarClose_eq : ∀ cs : List Char,
    matchStarClose cs = (lastCloseIdx cs).map (· + 1)
  | [] => rfl
  | c :: t => by
    have ih := matchStarClose_eq t
    simp only [matchStarClose, lastCloseIdx, ih]
    cases h : lastCloseIdx t with
    | none => by_cases hc : c = '\x7d' <;> simp [hc]
    | some j => simp

/-- Leftmost-greedy characterisation of the regex search: when the first
opening brace sits strictly before the last closing brace, the match spans
exactly from that opening brace to that closing brace. -/
theorem searchFrom_eq : ∀ (cs : List Char) (i j : Nat),
    firstBraceIdx cs = some i → lastCloseIdx cs = some j → i < j →
    searchFrom cs = some (i, j + 1 - i)
  | [], i, j, hf, _, _ => by simp [firstBraceIdx] at hf
  | c :: t, i, j, hf, hl, hij => by
    by_cases hc : c = '\x7b'
    · have hi : i = 0 := by
        simp [firstBraceIdx, hc] at hf
        omega
      subst hi
      cases hlt : lastCloseIdx t with
      | none =>
        rw [lastCloseIdx, hlt] at hl
        simp [hc] at hl
      | some j0 =>
        have hj : j = j0 + 1 := by
          rw [lastCloseIdx, hlt] at hl
          cases hl
          rfl
        subst hj
        simp [searchFrom, hc, matchStarClose_eq, hlt]
    · cases hft : firstBraceIdx t with
      | none =>
        exfalso
        rw [firstBraceIdx, if_neg hc, hft] at hf
        cases hf
      | some i0 =>
        have hi : i = i0 + 1 := by
          rw [firstBraceIdx, if_neg hc, hft] at hf
          cases hf
          rfl
        cases hlt : lastCloseIdx t with
        | none =>
          exfalso
          rw [lastCloseIdx, hlt] at hl
          by_cases hcd : c = '\x7d'
          · rw [if_pos hcd] at hl
            cases hl
            omega
          · rw [if_neg hcd] at hl
            cases hl
        | some j0 =>
          have hj : j = j0 + 1 := by
            rw [lastCloseIdx, hlt] at hl
            cases hl
            rfl
          have ih := searchFrom_eq t i0 j0 hft hlt (by omega)
          simp [searchFrom, hc, ih, Prod.ext_iff]
          omega

/-- The regex recovery of `extract_job_fields` returns the substring from
the first opening brace to the last closing brace whenever the former
precedes the latter. -/
theorem re_search_braces_eq (s : String) (i j : Nat)
    (hf : firstBraceIdx s.data = some i) (hl : lastCloseIdx s.data = some j)
    (hij : i < j) :
    re_search_braces s = some (String.mk ((s.data.drop i).take (j + 1 - i))) := by
  unfold re_search_braces
  rw [searchFrom_eq s.data i j hf hl hij]
  rfl

/-- Claim C1, counterexample: for the reply `\x7bbad\x7d` the strict parse
fails, the brace recovery finds the span `\x7bbad\x7d`, its parse fails too
— and the returned record carries only an `error` field, not the raw
reply, contradicting the claim that the still-unparseable case returns a
record containing the raw reply. -/
theorem C1_unparseable_span_drops_raw :
    (∃ m, json_loads "\x7bbad\x7d" = Except.error m) ∧
    re_search_braces "\x7bbad\x7d" = some "\x7bbad\x7d" ∧
    pyKeys (extract_job_fields "jd" (Except.ok "\x7bbad\x7d")) = ["error"] ∧
    pyHasKey "raw_output" (extract_job_fields "jd" (Except.ok "\x7bbad\x7d")) = false := by
  exact ⟨⟨"Expecting property name enclosed in double quotes", rfl⟩, rfl, rfl, rfl⟩

/-- Claim C1 (amended): `extract_job_fields` first attempts a strict JSON
parse of the reply; on failure it parses the leftmost greedy
brace-delimited span; when no such span exists it returns a record with an
`error` field and the raw reply; when the span exists but is itself
unparseable it returns a record containing only an `error` field, without
the raw reply. -/
theorem C1_parse_policy (job_text content : String) :
    (∀ v, json_loads content = Except.ok v →
      extract_job_fields job_text (Except.ok content) = v) ∧
    (∀ m sub v, json_loads content = Except.error m →
      re_search_braces content = some sub → json_loads sub = Except.ok v →
      extract_job_fields job_text (Except.ok content) = v) ∧
    (∀ m sub m2, json_loads content = Except.error m →
      re_search_braces content = some sub → json_loads sub = Except.error m2 →
      extract_job_fields job_text (Except.ok content) =
        JsonVal.obj [("error", JsonVal.str m2)]) ∧
    (∀ m, json_loads content = Except.error m → re_search_braces content = none →
      extract_job_fields job_text (Except.ok content) =
        JsonVal.obj [("error", JsonVal.str "No valid JSON detected"),
                     ("raw_output", JsonVal.str content)]) := by
  refine ⟨?_, ?_, ?_, ?_⟩ <;> intros <;> simp_all [extract_job_fields]

/-- Witness for `C1_parse_policy`: the recovery branch on a reply with
prose around the object, and the raw-reply branch on a reply with no
braces at all. -/
theorem C1_parse_policy_witness :
    extract_job_fields "jd" (Except.ok "reply: \x7b\"a\": null\x7d yes") =
      JsonVal.obj [("a", JsonVal.null)] ∧
    extract_job_fields "jd" (Except.ok "no json at all") =
      JsonVal.obj [("error", JsonVal.str "No valid JSON detected"),
                   ("raw_output", JsonVal.str "no json at all")] := by
  constructor
  · exact (C1_parse_policy "jd" "reply: \x7b\"a\": null\x7d yes").2.1
      "Expecting value" "\x7b\"a\": null\x7d" (JsonVal.obj [("a", JsonVal.null)]) rfl rfl rfl
  · exact (C1_parse_policy "jd" "no json at all").2.2.2 "Expecting value" rfl rfl

/-- Claim C2: each wrapped external call that fails yields the documented
descriptive value instead of a fault — the sentinel string for text
extraction, a record with an `error` field for field extraction, and an
error-message string for introduction generation.  (Totality of all three
functions holds by construction of the embedding: each is a total Lean
function.) -/
theorem C2_failures_become_values :
    (∀ (fs : FS) (e : String), fs.pdfPages = Except.error e →
      extract_text fs "pdf" = "__READ_ERROR__:" ++ e) ∧
    (∀ (fs : FS) (e : String), fs.docxParas = Except.error e →
      extract_text fs "docx" = "__READ_ERROR__:" ++ e) ∧
    (∀ (fs : FS) (e : String), fs.txtContent = Except.error e →
      extract_text fs "txt" = "__READ_ERROR__:" ++ e) ∧
    (∀ (jt e : String), extract_job_fields jt (Except.error e) =
      JsonVal.obj [("error", JsonVal.str e)]) ∧
    (∀ (j : JsonVal) (e : String), generate_job_intro j (Except.error e) =
      "Error generating intro: " ++ e) := by
  refine ⟨?_, ?_, ?_, ?_, ?_⟩ <;> intros <;>
    simp_all [extract_text, extract_job_fields, generate_job_intro]

/-- Witness for `C2_failures_become_values` at concrete failures. -/
theorem C2_failures_become_values_witness :
    extract_text
      { pdfPages := Except.error "boom", docxParas := Except.ok [],
        txtContent := Except.ok "" } "pdf" = "__READ_ERROR__:boom" ∧
    extract_job_fields "jd" (Except.error "connection timed out") =
      JsonVal.obj [("error", JsonVal.str "connection timed out")] ∧
    generate_job_intro JsonVal.null (Except.error "401 Unauthorized") =
      "Error generating intro: 401 Unauthorized" := by
  refine ⟨?_, ?_, ?_⟩
  · exact C2_failures_become_values.1 _ "boom" rfl
  · exact C2_failures_become_values.2.2.2.1 "jd" "connection timed out"
  · exact C2_failures_become_values.2.2.2.2 JsonVal.null "401 Unauthorized"

/-- Claim C4, counterexample: the introduction request's token ceiling
(400) is not larger than the extraction request's (1200). -/
theorem C4_intro_ceiling_not_larger :
    ¬ ((generate_job_intro_request none (JsonVal.obj [])).max_tokens >
       (extract_job_fields_request none "jd").max_tokens) := by decide

/-- Claim C4 (amended): the introduction request uses temperature 0.7 and
max_tokens 400, the extraction request max_tokens 1200 — so the
introduction ceiling is the smaller of the two. -/
theorem C4_request_parameters (api_key : Option String) (j : JsonVal) (jt : String) :
    (generate_job_intro_request api_key j).temperature = 0.7 ∧
    (generate_job_intro_request api_key j).max_tokens = 400 ∧
    (extract_job_fields_request api_key jt).max_tokens = 1200 ∧
    (generate_job_intro_request api_key j).max_tokens <
      (extract_job_fields_request api_key jt).max_tokens := by
  refine ⟨rfl, rfl, rfl, ?_⟩
  show (400 : Nat) < 1200
  decide

/-- Claim C8: for a type tag outside pdf/docx/txt, `extract_text` returns
the empty string whatever the filesystem holds — it does not consult the
file, does not produce the sentinel, and (being total) cannot raise. -/
theorem C8_unknown_type_empty (fs fs2 : FS) (file_type : String)
    (h1 : file_type ≠ "pdf") (h2 : file_type ≠ "docx") (h3 : file_type ≠ "txt") :
    extract_text fs file_type = "" ∧
    extract_text fs file_type = extract_text fs2 file_type ∧
    py_startswith "__READ_ERROR__" (extract_text fs file_type) = false := by
  have ha : extract_text fs file_type = "" := by
    unfold extract_text
    rw [if_neg h1, if_neg h2, if_neg h3]
  have hb : extract_text fs2 file_type = "" := by
    unfold extract_text
    rw [if_neg h1, if_neg h2, if_neg h3]
  refine ⟨ha, ha.trans hb.symm, ?_⟩
  rw [ha]
  rfl

/-- Witness for `C8_unknown_type_empty` at the tag `rtf`. -/
theorem C8_unknown_type_empty_witness :
    extract_text
      { pdfPages := Except.error "io", docxParas := Except.ok ["para"],
        txtContent := Except.ok "text" } "rtf" = "" := by
  exact (C8_unknown_type_empty _
    { pdfPages := Except.ok [], docxParas := Except.ok [], txtContent := Except.ok "" }
    "rtf" (by decide) (by decide) (by decide)).1

/-- Claim C9: a well-formed txt file whose content begins with
`__READ_ERROR__` extracts successfully to the very string a read failure
would produce, and the shell then renders the successfully extracted text
as a file-read error and stops (no text area, no button, no calls). -/
theorem C9_sentinel_collision :
    extract_text
      { pdfPages := Except.error "io", docxParas := Except.error "io",
        txtContent := Except.ok "__READ_ERROR__:fake" } "txt"
    = extract_text
      { pdfPages := Except.error "io", docxParas := Except.error "io",
        txtContent := Except.error "fake" } "txt" ∧
    shell_run
      { api_key := none, uploaded := some "jd.txt",
        fs := { pdfPages := Except.error "io", docxParas := Except.error "io",
                txtContent := Except.ok "__READ_ERROR__:fake" },
        extract_clicked := true, audio_clicked := true,
        fields_transport := Except.ok "\x7b\x7d",
        intro_transport := Except.ok "hello",
        tts_result := Except.ok () }
    = { elems := shell_header ++
          [UIElem.errorMsg "Failed to read file: __READ_ERROR__:fake"],
        calls := [], crashed := none } := by
  exact ⟨rfl, rfl⟩

/-- Claim C10: the brace recovery selects the span from the first opening
brace to the last closing brace (greedy), and on a reply that is a valid
object followed by prose with a later closing brace the recovered span is
not valid JSON, so the function returns an error record instead of the
embedded object. -/
theorem C10_greedy_recovery :
    (∀ (s : String) (i j : Nat),
      firstBraceIdx s.data = some i → lastCloseIdx s.data = some j → i < j →
      re_search_braces s = some (String.mk ((s.data.drop i).take (j + 1 - i)))) ∧
    json_loads "\x7b\"a\": 1\x7d trailing \x7d" = Except.error "Extra data" ∧
    re_search_braces "\x7b\"a\": 1\x7d trailing \x7d" =
      some "\x7b\"a\": 1\x7d trailing \x7d" ∧
    (∃ m, json_loads "\x7b\"a\": 1\x7d trailing \x7d" = Except.error m) ∧
    pyKeys (extract_job_fields "jd" (Except.ok "\x7b\"a\": 1\x7d trailing \x7d")) =
      ["error"] ∧
    pyHasKey "a" (extract_job_fields "jd" (Except.ok "\x7b\"a\": 1\x7d trailing \x7d")) =
      false := by
  exact ⟨re_search_braces_eq, rfl, rfl, ⟨"Extra data", rfl⟩, rfl, rfl⟩

/-- Witness for `C10_greedy_recovery`: on `a\x7bb\x7dc\x7dd` the match
runs from the brace at index 1 to the last closing brace at index 5. -/
theorem C10_greedy_recovery_witness :
    re_search_braces "a\x7bb\x7dc\x7dd" = some "\x7bb\x7dc\x7d" := by
  exact (C10_greedy_recovery.1 "a\x7bb\x7dc\x7dd" 1 5 rfl rfl (by omega)).trans rfl

set_option maxRecDepth 100000 in
/-- Claim C6: the instruction prompt enumerates exactly the sixteen target
fields (the assembled prompt equals the source literal verbatim), and a
reply that strictly parses to an object carrying all sixteen keys is
returned with every one of those keys present. -/
theorem C6_sixteen_fields :
    target_fields.length = 16 ∧
    target_fields.Nodup ∧
    (∀ job_text, extract_prompt job_text =
      "\nYou are an expert job information extraction assistant.\n\nFrom the job description below, extract and return a structured JSON object\nwith the following fields:\n\n- job_title\n- company_name\n- location\n- employment_type\n- seniority_level\n- hard_skills\n- soft_skills\n- certifications\n- tools\n- experience\n- education_level\n- duties_and_responsibilities\n- preferred_skills\n- communication_skills\n- language\n- salary\n\nRules:\n- Use lists for fields like skills, certifications, tools, or languages.\n- If a field is not present, return null or an empty list.\n- Maintain JSON validity strictly â€” no explanations or extra text.\n- Do not infer or guess beyond the text; extract only what is clearly mentioned.\n\nJob Description:\n\"\"\""
      ++ job_text ++ "\"\"\"\n") ∧
    (∀ jt content members,
      json_loads content = Except.ok (JsonVal.obj members) →
      (∀ f ∈ target_fields, pyHasKey f (JsonVal.obj members) = true) →
      ∀ f ∈ target_fields,
        pyHasKey f (extract_job_fields jt (Except.ok content)) = true) := by
  refine ⟨rfl, by decide, fun job_text => rfl, ?_⟩
  intro jt content members hparse hkeys f hf
  have hres : extract_job_fields jt (Except.ok content) = JsonVal.obj members := by
    simp [extract_job_fields, hparse]
  rw [hres]
  exact hkeys f hf

set_option maxRecDepth 100000 in
/-- Witness for `C6_sixteen_fields`: a sixteen-field reply is returned
with the `salary` key (and, by the same instantiation, every other) present. -/
theorem C6_sixteen_fields_witness :
    pyHasKey "salary" (extract_job_fields "jd" (Except.ok
      "\x7b\"job_title\": \"Software Engineer\", \"company_name\": \"Acme\", \"location\": \"Remote\", \"employment_type\": \"Full-time\", \"seniority_level\": \"Senior\", \"hard_skills\": [\"Python\"], \"soft_skills\": [\"Communication\"], \"certifications\": [], \"tools\": [\"Git\"], \"experience\": \"5 years\", \"education_level\": \"Bachelor\", \"duties_and_responsibilities\": [\"Build systems\"], \"preferred_skills\": [], \"communication_skills\": [\"English\"], \"language\": [\"English\"], \"salary\": null\x7d"))
      = true := by
  exact C6_sixteen_fields.2.2.2 "jd"
    "\x7b\"job_title\": \"Software Engineer\", \"company_name\": \"Acme\", \"location\": \"Remote\", \"employment_type\": \"Full-time\", \"seniority_level\": \"Senior\", \"hard_skills\": [\"Python\"], \"soft_skills\": [\"Communication\"], \"certifications\": [], \"tools\": [\"Git\"], \"experience\": \"5 years\", \"education_level\": \"Bachelor\", \"duties_and_responsibilities\": [\"Build systems\"], \"preferred_skills\": [], \"communication_skills\": [\"English\"], \"language\": [\"English\"], \"salary\": null\x7d"
    [("job_title", JsonVal.str "Software Engineer"),
     ("company_name", JsonVal.str "Acme"),
     ("location", JsonVal.str "Remote"),
     ("employment_type", JsonVal.str "Full-time"),
     ("seniority_level", JsonVal.str "Senior"),
     ("hard_skills", JsonVal.arr [JsonVal.str "Python"]),
     ("soft_skills", JsonVal.arr [JsonVal.str "Communication"]),
     ("certifications", JsonVal.arr []),
     ("tools", JsonVal.arr [JsonVal.str "Git"]),
     ("experience", JsonVal.str "5 years"),
     ("education_level", JsonVal.str "Bachelor"),
     ("duties_and_responsibilities", JsonVal.arr [JsonVal.str "Build systems"]),
     ("preferred_skills", JsonVal.arr []),
     ("communication_skills", JsonVal.arr [JsonVal.str "English"]),
     ("language", JsonVal.arr [JsonVal.str "English"]),
     ("salary", JsonVal.null)]
    rfl (by decide) "salary" (by decide)

/-- Exhaustive shape of the call list of one pass: either no call was
issued, or the extract button was clicked on usable text and the calls are
the fields request, optionally followed by the introduction request (when
the record had no `error` key), optionally followed by the TTS rendering
(when the audio button was also clicked). -/
theorem shell_calls_shape (inp : ShellInput) :
    (shell_run inp).calls = [] ∨
    (∃ name, inp.uploaded = some name ∧ inp.extract_clicked = true ∧
      py_startswith "__READ_ERROR__" (extract_text inp.fs (file_ext name)) = false ∧
      ¬ ((py_strip (extract_text inp.fs (file_ext name))).length < 50) ∧
      ((py_in_str "error" (extract_job_fields (extract_text inp.fs (file_ext name))
          inp.fields_transport) ≠ Except.ok false ∧
        (shell_run inp).calls =
          [ShellCall.fieldsHttp (extract_job_fields_request inp.api_key
            (extract_text inp.fs (file_ext name)))]) ∨
       (py_in_str "error" (extract_job_fields (extract_text inp.fs (file_ext name))
          inp.fields_transport) = Except.ok false ∧
        ((inp.audio_clicked = false ∧
          (shell_run inp).calls =
            [ShellCall.fieldsHttp (extract_job_fields_request inp.api_key
              (extract_text inp.fs (file_ext name))),
             ShellCall.introHttp (generate_job_intro_request inp.api_key
              (extract_job_fields (extract_text inp.fs (file_ext name))
                inp.fields_transport))]) ∨
         (inp.audio_clicked = true ∧
          (shell_run inp).calls =
            [ShellCall.fieldsHttp (extract_job_fields_request inp.api_key
              (extract_text inp.fs (file_ext name))),
             ShellCall.introHttp (generate_job_intro_request inp.api_key
              (extract_job_fields (extract_text inp.fs (file_ext name))
                inp.fields_transport)),
             ShellCall.ttsRender (tts_call (generate_job_intro
              (extract_job_fields (extract_text inp.fs (file_ext name))
                inp.fields_transport) inp.intro_transport))]))))) := by
  cases hup : inp.uploaded with
  | none =>
    left
    unfold shell_run
    rw [hup]
  | some name =>
    by_cases hs : py_startswith "__READ_ERROR__" (extract_text inp.fs (file_ext name)) = true
    · left
      unfold shell_run
      rw [hup]
      simp [hs]
    · have hs2 : py_startswith "__READ_ERROR__" (extract_text inp.fs (file_ext name)) = false := by
        simpa using hs
      by_cases hlen : (py_strip (extract_text inp.fs (file_ext name))).length < 50
      · left
        unfold shell_run
        rw [hup]
        simp [hs2, hlen]
      · cases hec : inp.extract_clicked with
        | false =>
          left
          unfold shell_run
          rw [hup]
          simp [hs2, hlen, hec]
        | true =>
          right
          refine ⟨name, rfl, rfl, hs2, hlen, ?_⟩
          cases hpy : py_in_str "error" (extract_job_fields
              (extract_text inp.fs (file_ext name)) inp.fields_transport) with
          | error e =>
            left
            refine ⟨by simp [hpy], ?_⟩
            unfold shell_run
            rw [hup]
            simp [hs2, hlen, hec, hpy]
          | ok b =>
            cases b with
            | true =>
              left
              refine ⟨by simp [hpy], ?_⟩
              unfold shell_run
              rw [hup]
              simp [hs2, hlen, hec, hpy]
            | false =>
              right
              refine ⟨rfl, ?_⟩
              cases hac : inp.audio_clicked with
              | false =>
                left
                refine ⟨rfl, ?_⟩
                unfold shell_run
                rw [hup]
                simp [hs2, hlen, hec, hpy, hac]
              | true =>
                right
                refine ⟨rfl, ?_⟩
                cases htr : inp.tts_result with
                | ok u =>
                  unfold shell_run
                  rw [hup]
                  simp [hs2, hlen, hec, hpy, hac, htr]
                | error e =>
                  unfold shell_run
                  rw [hup]
                  simp [hs2, hlen, hec, hpy, hac, htr]

/-- Claim C3 (amended): on a successfully extracted text (no sentinel), a
stripped length under 50 renders the short-text warning and nothing else —
in particular the extract-fields button is not rendered, so progression is
structurally blocked, not merely warned about; a length of 50 or more
skips the warning and renders the button. -/
theorem C3_short_text_gate (inp : ShellInput) (name : String)
    (hup : inp.uploaded = some name)
    (hs : py_startswith "__READ_ERROR__" (extract_text inp.fs (file_ext name)) = false) :
    ((py_strip (extract_text inp.fs (file_ext name))).length < 50 →
      shell_run inp =
        { elems := shell_header ++ [UIElem.warningMsg short_text_warning],
          calls := [], crashed := none } ∧
      (shell_run inp).elems.any isButton = false) ∧
    (50 ≤ (py_strip (extract_text inp.fs (file_ext name))).length →
      (shell_run inp).elems.any isWarning = false ∧
      (shell_run inp).elems.any isButton = true) := by
  constructor
  · intro hlen
    have hrun : shell_run inp =
        { elems := shell_header ++ [UIElem.warningMsg short_text_warning],
          calls := [], crashed := none } := by
      unfold shell_run
      rw [hup]
      simp [hs, hlen]
    exact ⟨hrun, by rw [hrun]; rfl⟩
  · intro hge
    have hlen : ¬ ((py_strip (extract_text inp.fs (file_ext name))).length < 50) := by
      omega
    unfold shell_run
    rw [hup]
    cases hec : inp.extract_clicked with
    | false => simp [hs, hlen, hec, shell_header, isWarning, isButton]
    | true =>
      cases hpy : py_in_str "error" (extract_job_fields
          (extract_text inp.fs (file_ext name)) inp.fields_transport) with
      | error e => simp [hs, hlen, hec, hpy, shell_header, isWarning, isButton]
      | ok b =>
        cases b with
        | true => simp [hs, hlen, hec, hpy, shell_header, isWarning, isButton]
        | false =>
          cases hac : inp.audio_clicked with
          | false => simp [hs, hlen, hec, hpy, hac, shell_header, isWarning, isButton]
          | true =>
            cases htr : inp.tts_result with
            | ok u => simp [hs, hlen, hec, hpy, hac, htr, shell_header, isWarning, isButton]
            | error e => simp [hs, hlen, hec, hpy, hac, htr, shell_header, isWarning, isButton]

/-- Claim C3, counterexample: for a 10-character extracted text the pass
renders the warning and no extract button at all — the claim that the
button "can still be pressed" fails, because the button is only created in
the `else` branch the warning path skips. -/
theorem C3_warning_path_has_no_button :
    shell_run
      { api_key := none, uploaded := some "jd.txt",
        fs := { pdfPages := Except.error "na", docxParas := Except.error "na",
                txtContent := Except.ok "short text" },
        extract_clicked := true, audio_clicked := false,
        fields_transport := Except.ok "\x7b\x7d",
        intro_transport := Except.ok "hi", tts_result := Except.ok () }
      = { elems := shell_header ++ [UIElem.warningMsg short_text_warning],
          calls := [], crashed := none } ∧
    (shell_run
      { api_key := none, uploaded := some "jd.txt",
        fs := { pdfPages := Except.error "na", docxParas := Except.error "na",
                txtContent := Except.ok "short text" },
        extract_clicked := true, audio_clicked := false,
        fields_transport := Except.ok "\x7b\x7d",
        intro_transport := Except.ok "hi",
        tts_result := Except.ok () }).elems.any isButton = false := by
  exact ⟨rfl, rfl⟩

/-- Witness for `C3_short_text_gate`: the warning branch at a 10-character
text and the button-rendering branch at a 67-character text. -/
theorem C3_short_text_gate_witness :
    shell_run
      { api_key := none, uploaded := some "a.txt",
        fs := { pdfPages := Except.error "na", docxParas := Except.error "na",
                txtContent := Except.ok "tiny posts" },
        extract_clicked := false, audio_clicked := false,
        fields_transport := Except.error "na",
        intro_transport := Except.error "na", tts_result := Except.ok () }
      = { elems := shell_header ++ [UIElem.warningMsg short_text_warning],
          calls := [], crashed := none } ∧
    (shell_run
      { api_key := none, uploaded := some "b.txt",
        fs := { pdfPages := Except.error "na", docxParas := Except.error "na",
                txtContent := Except.ok
                  "Software Engineer role at Acme building compilers in Lean, remote." },
        extract_clicked := false, audio_clicked := false,
        fields_transport := Except.error "na",
        intro_transport := Except.error "na",
        tts_result := Except.ok () }).elems.any isButton = true := by
  constructor
  · exact ((C3_short_text_gate
      { api_key := none, uploaded := some "a.txt",
        fs := { pdfPages := Except.error "na", docxParas := Except.error "na",
                txtContent := Except.ok "tiny posts" },
        extract_clicked := false, audio_clicked := false,
        fields_transport := Except.error "na",
        intro_transport := Except.error "na", tts_result := Except.ok () }
      "a.txt" rfl rfl).1 (by decide)).1
  · exact ((C3_short_text_gate
      { api_key := none, uploaded := some "b.txt",
        fs := { pdfPages := Except.error "na", docxParas := Except.error "na",
                txtContent := Except.ok
                  "Software Engineer role at Acme building compilers in Lean, remote." },
        extract_clicked := false, audio_clicked := false,
        fields_transport := Except.error "na",
        intro_transport := Except.error "na",
        tts_result := Except.ok () }
      "b.txt" rfl rfl).2 (by decide)).2

/-- Claim C5 (amended): every call is gated on the previous stage — the
fields request needs the extract click on usable text, the introduction
request needs the fields call and an error-free record, the TTS rendering
needs the audio click and the introduction — and the call list is always a
prefix of fields-intro-tts; but the introduction stage has no user action
of its own (see the counterexample theorem). -/
theorem C5_stage_gating (inp : ShellInput) :
    (hasFields (shell_run inp).calls = true →
      inp.extract_clicked = true ∧
      ∃ name, inp.uploaded = some name ∧
        py_startswith "__READ_ERROR__" (extract_text inp.fs (file_ext name)) = false ∧
        50 ≤ (py_strip (extract_text inp.fs (file_ext name))).length) ∧
    (hasIntro (shell_run inp).calls = true →
      hasFields (shell_run inp).calls = true ∧
      ∃ name, inp.uploaded = some name ∧
        py_in_str "error" (extract_job_fields (extract_text inp.fs (file_ext name))
          inp.fields_transport) = Except.ok false) ∧
    (hasTts (shell_run inp).calls = true →
      inp.audio_clicked = true ∧ hasIntro (shell_run inp).calls = true) ∧
    (tagsOf (shell_run inp).calls = [] ∨
     tagsOf (shell_run inp).calls = [StageTag.fields] ∨
     tagsOf (shell_run inp).calls = [StageTag.fields, StageTag.intro] ∨
     tagsOf (shell_run inp).calls = [StageTag.fields, StageTag.intro, StageTag.tts]) := by
  rcases shell_calls_shape inp with hnil | ⟨name, hup, hec, hs, hlen, hrest⟩
  · refine ⟨?_, ?_, ?_, ?_⟩
    · intro h; rw [hnil] at h; simp [hasFields, tagsOf] at h
    · intro h; rw [hnil] at h; simp [hasIntro, tagsOf] at h
    · intro h; rw [hnil] at h; simp [hasTts, tagsOf] at h
    · left; rw [hnil]; rfl
  · rcases hrest with ⟨hne, hcalls⟩ | ⟨hok, hrest2⟩
    · refine ⟨?_, ?_, ?_, ?_⟩
      · intro _; exact ⟨hec, name, hup, hs, by omega⟩
      · intro h; rw [hcalls] at h; simp [hasIntro, tagsOf, ShellCall.tag] at h
      · intro h; rw [hcalls] at h; simp [hasTts, tagsOf, ShellCall.tag] at h
      · right; left; rw [hcalls]; rfl
    · rcases hrest2 with ⟨hac, hcalls⟩ | ⟨hac, hcalls⟩
      · refine ⟨?_, ?_, ?_, ?_⟩
        · intro _; exact ⟨hec, name, hup, hs, by omega⟩
        · intro _; exact ⟨by rw [hcalls]; rfl, name, hup, hok⟩
        · intro h; rw [hcalls] at h; simp [hasTts, tagsOf, ShellCall.tag] at h
        · right; right; left; rw [hcalls]; rfl
      · refine ⟨?_, ?_, ?_, ?_⟩
        · intro _; exact ⟨hec, name, hup, hs, by omega⟩
        · intro _; exact ⟨by rw [hcalls]; rfl, name, hup, hok⟩
        · intro _; exact ⟨hac, by rw [hcalls]; rfl⟩
        · right; right; right; rw [hcalls]; rfl

/-- Claim C5, counterexample: a pass in which only the extract-fields
button is clicked (the audio button is not) issues both the fields call
and the introduction call — the introduction stage runs with no user
action of its own, against the claim that every stage awaits an explicit
user request. -/
theorem C5_intro_runs_on_same_click :
    tagsOf (shell_run
      { api_key := none, uploaded := some "jd.txt",
        fs := { pdfPages := Except.error "na", docxParas := Except.error "na",
                txtContent := Except.ok
                  "Software Engineer role at Acme building compilers in Lean, remote." },
        extract_clicked := true, audio_clicked := false,
        fields_transport := Except.ok "\x7b\"job_title\": \"Software Engineer\"\x7d",
        intro_transport := Except.ok "Welcome!",
        tts_result := Except.ok () }).calls
      = [StageTag.fields, StageTag.intro] := by
  rfl

/-- Witness for `C5_stage_gating`: in the pass of the counterexample input
the introduction call is present, hence so are the fields call and the
error-free record. -/
theorem C5_stage_gating_witness :
    hasFields (shell_run
      { api_key := none, uploaded := some "jd.txt",
        fs := { pdfPages := Except.error "na", docxParas := Except.error "na",
                txtContent := Except.ok
                  "Software Engineer role at Acme building compilers in Lean, remote." },
        extract_clicked := true, audio_clicked := false,
        fields_transport := Except.ok "\x7b\"job_title\": \"Software Engineer\"\x7d",
        intro_transport := Except.ok "Welcome!",
        tts_result := Except.ok () }).calls = true ∧
    ∃ name,
      ({ api_key := none, uploaded := some "jd.txt",
         fs := { pdfPages := Except.error "na", docxParas := Except.error "na",
                 txtContent := Except.ok
                   "Software Engineer role at Acme building compilers in Lean, remote." },
         extract_clicked := true, audio_clicked := false,
         fields_transport := Except.ok "\x7b\"job_title\": \"Software Engineer\"\x7d",
         intro_transport := Except.ok "Welcome!",
         tts_result := Except.ok () } : ShellInput).uploaded = some name ∧
      py_in_str "error" (extract_job_fields
        (extract_text { pdfPages := Except.error "na", docxParas := Except.error "na",
                        txtContent := Except.ok
                          "Software Engineer role at Acme building compilers in Lean, remote." }
          (file_ext name))
        (Except.ok "\x7b\"job_title\": \"Software Engineer\"\x7d")) = Except.ok false := by
  exact (C5_stage_gating _).2.1 (by rfl)

/-- Claim C7: both HTTP requests carry the fixed 30-second timeout, the
TTS call carries none, and every call a pass actually issues satisfies
this policy. -/
theorem C7_call_timeouts :
    (∀ (api_key : Option String) (jt : String),
      (extract_job_fields_request api_key jt).timeout = some 30) ∧
    (∀ (api_key : Option String) (j : JsonVal),
      (generate_job_intro_request api_key j).timeout = some 30) ∧
    (∀ s, (tts_call s).timeout = none) ∧
    (∀ inp, ((shell_run inp).calls.all call_timeouts_ok) = true) := by
  refine ⟨fun _ _ => rfl, fun _ _ => rfl, fun _ => rfl, ?_⟩
  intro inp
  rcases shell_calls_shape inp with hnil | ⟨name, _, _, _, _, hrest⟩
  · rw [hnil]
    rfl
  · rcases hrest with ⟨_, hcalls⟩ | ⟨_, hrest2⟩
    · rw [hcalls]
      rfl
    · rcases hrest2 with ⟨_, hcalls⟩ | ⟨_, hcalls⟩ <;> rw [hcalls] <;> rfl
